import Mathlib

/-!
Verification of the connectivity / provisioning core of the `discord-clock`
firmware (files `main/discord_clock.c` and the `config_portal` component).

The embedding models:
* the Wi-Fi connectivity state machine (`wifi_event_handler`, `start_ap`,
  `connection_success_callback`) as a transition function over an explicit
  record of the C globals plus a trace of the externally visible actions;
* the provisioning portal's HTTP handlers (`save_post_handler`,
  `settings_get_handler`, `index_get_handler`) and their helpers
  (`url_decode`, the `sscanf`/`strtok` parsing, `load_setting`) as pure
  functions over character lists (C strings without their terminator).
-/

/-! ### Connectivity state machine (main/discord_clock.c) -/

/-- Externally visible actions the connectivity code performs, in order. -/
inductive Act where
  | wifiConnect
  | portalStop (h : Nat)
  | apConfigStart
  | portalStart (h : Nat)
  | mdnsInit
  | readiness
  | discordLogin
  deriving DecidableEq, Repr

/-- The C globals of `discord_clock.c` relevant to connectivity, plus a
fresh-handle counter for portal server handles, the set of portal server
instances currently running, and the trace of actions performed so far. -/
structure ClockState where
  sta_retry_count : Nat
  sta_connected : Bool
  server : Option Nat
  active : List Nat
  nextHandle : Nat
  trace : List Act
  deriving DecidableEq, Repr

/-- `config_portal_start`: starts an HTTP server and returns its handle. -/
def config_portal_start (s : ClockState) : Nat × ClockState :=
  (s.nextHandle,
   { s with active := s.active ++ [s.nextHandle],
            nextHandle := s.nextHandle + 1,
            trace := s.trace ++ [Act.portalStart s.nextHandle] })

/-- `config_portal_stop`: stops the HTTP server behind handle `h`. -/
def config_portal_stop (s : ClockState) (h : Nat) : ClockState :=
  { s with active := s.active.filter (· ≠ h),
           trace := s.trace ++ [Act.portalStop h] }

/-- `start_ap` from `discord_clock.c`: stops a running portal if the
`server` global is non-NULL, configures and starts access-point mode, then
starts the (fallback) portal and stores its handle in `server`. -/
def start_ap (s : ClockState) : ClockState :=
  let s1 :=
    match s.server with
    | some h => config_portal_stop s h
    | none => s
  let s2 := { s1 with trace := s1.trace ++ [Act.apConfigStart] }
  let p := config_portal_start s2
  { p.2 with server := some p.1 }

/-- `connection_success_callback` from `discord_clock.c`: fires the
readiness notification, initialises mDNS, starts a portal only when none is
recorded in `server` (`if (!server)`), then logs the bot in. -/
def connection_success_callback (s : ClockState) : ClockState :=
  let s1 := { s with trace := s.trace ++ [Act.readiness, Act.mdnsInit] }
  let s2 :=
    match s1.server with
    | none =>
        let p := config_portal_start s1
        { p.2 with server := some p.1 }
    | some _ => s1
  { s2 with trace := s2.trace ++ [Act.discordLogin] }

/-- Events delivered to `wifi_event_handler`. -/
inductive WifiEvent where
  | staStart
  | staDisconnected
  | apStaConnected
  | apStaDisconnected
  | gotIP
  deriving DecidableEq, Repr

/-- `wifi_event_handler` from `discord_clock.c`; `max` is the Kconfig value
`CONFIG_MAX_STA_RETRIES`. -/
def wifi_event_handler (max : Nat) (s : ClockState) (e : WifiEvent) : ClockState :=
  match e with
  | WifiEvent.staStart => { s with trace := s.trace ++ [Act.wifiConnect] }
  | WifiEvent.staDisconnected =>
      if s.sta_retry_count < max then
        { s with sta_retry_count := s.sta_retry_count + 1,
                 trace := s.trace ++ [Act.wifiConnect] }
      else
        start_ap { s with sta_connected := false }
  | WifiEvent.apStaConnected => s
  | WifiEvent.apStaDisconnected => s
  | WifiEvent.gotIP => connection_success_callback { s with sta_connected := true }

/-- State at a boot that found stored credentials: `app_main` ran
`start_sta`, no portal is running, the static retry counter is zero. -/
def bootStaState : ClockState :=
  { sta_retry_count := 0, sta_connected := false, server := none,
    active := [], nextHandle := 0, trace := [] }

/-- Deliver a list of events to `wifi_event_handler` in order. -/
def runEvents (max : Nat) (s : ClockState) (es : List WifiEvent) : ClockState :=
  es.foldl (wifi_event_handler max) s

/-! ### Provisioning portal (config_portal component) -/

/-- The C library's `isxdigit` restricted to the ASCII hex digits. -/
def isxdigitC (c : Char) : Bool :=
  (('0' ≤ c) && (c ≤ '9')) || (('a' ≤ c) && (c ≤ 'f')) || (('A' ≤ c) && (c ≤ 'F'))

/-- The hex-digit arithmetic of `url_decode`: lowercase is folded to
uppercase (`a -= 'a'-'A'`), then `a - 'A' + 10` for letters, `a - '0'` for
digits. -/
def hexDigitVal (c : Char) : Nat :=
  let n := c.toNat
  let n1 := if 97 ≤ n then n - 32 else n
  if 65 ≤ n1 then n1 - 65 + 10 else n1 - 48

/-- `url_decode` from the `config_portal` component: `%XX` with two hex
digits becomes the byte `16*X+X`, `+` becomes a space, anything else is
copied.  A `%` not followed by two hex digits (the C code also requires the
two following bytes to be non-NUL, which `isxdigit` failing on NUL already
ensures) is copied verbatim and decoding resumes at the next byte. -/
def url_decode : List Char → List Char
  | [] => []
  | c :: rest =>
      if c = '%' then
        match rest with
        | a :: b :: rest2 =>
            if isxdigitC a && isxdigitC b then
              Char.ofNat (16 * hexDigitVal a + hexDigitVal b) ::
                url_decode rest2
            else '%' :: url_decode (a :: b :: rest2)
        | [a] => '%' :: url_decode [a]
        | [] => ['%']
      else if c = '+' then ' ' :: url_decode rest
      else c :: url_decode rest

/-- The C locale's `isspace`: space, `\t`, `\n`, `\v`, `\f`, `\r`. -/
def isspaceC (c : Char) : Bool :=
  c = ' ' || c = '\t' || c = '\n' || c.toNat = 11 || c.toNat = 12 || c = '\r'

/-- Split on `&` keeping empty segments (the raw cut points). -/
def splitAmp : List Char → List (List Char)
  | [] => [[]]
  | c :: rest =>
      if c = '&' then [] :: splitAmp rest
      else
        match splitAmp rest with
        | [] => [[c]]
        | t :: ts => (c :: t) :: ts

/-- The `strtok(buf, "&")` loop of `save_post_handler`: the tokens are the
maximal nonempty runs of non-`&` bytes. -/
def splitPairs (body : List Char) : List (List Char) :=
  (splitAmp body).filter (fun t => !t.isEmpty)

/-- `sscanf(pair, "%31[^=]=%127s", key, value)` requiring both conversions
to succeed: `%31[^=]` takes up to 31 leading non-`=` bytes and fails on
zero bytes; the literal `=` must then match (so a key part longer than 31
bytes makes the whole pair fail, as does a pair with no `=`); `%127s`
skips leading whitespace and takes up to 127 non-whitespace bytes, failing
on zero bytes (so `key=` fails). -/
def scanPair (pair : List Char) : Option (List Char × List Char) :=
  let key := (pair.takeWhile (fun c => c ≠ '=')).take 31
  if key.isEmpty then none
  else
    match pair.drop key.length with
    | '=' :: rest =>
        let afterWs := rest.dropWhile isspaceC
        let value := (afterWs.takeWhile (fun c => !isspaceC c)).take 127
        if value.isEmpty then none else some (key, value)
    | _ => none

/-- The `(key, decoded value)` pairs that `save_post_handler` passes to
`save_setting`, in order.  The key is stored raw; only the value is
URL-decoded. -/
def saveWrites (body : List Char) : List (List Char × List Char) :=
  (splitPairs body).filterMap
    (fun p => (scanPair p).map (fun kv => (kv.1, url_decode kv.2)))

/-- The `reboot_needed` flag of `save_post_handler`: some parsed pair has
raw key `ssid` or `pass`. -/
def rebootNeeded (body : List Char) : Bool :=
  (splitPairs body).any
    (fun p =>
      match scanPair p with
      | some kv => kv.1 = "ssid".toList || kv.1 = "pass".toList
      | none => false)

/-- Response-side effects `save_post_handler` performs, in order. -/
inductive SaveEffect where
  | send500
  | oobWrite
  | sendBody (s : List Char)
  | setStatus (s : List Char)
  | setHeader (k v : List Char)
  | delayMs (n : Nat)
  | restart
  deriving DecidableEq, Repr

/-- Result of one `save_post_handler` invocation: the settings writes it
issued and the response effects it performed. -/
structure SaveResponse where
  writes : List (List Char × List Char)
  effects : List SaveEffect
  deriving DecidableEq, Repr

/-- `save_post_handler` from the `config_portal` component, on a request
body of `content_len = body.length` bytes.  `httpd_req_recv(req, buf,
req->content_len)` is called with the *content length*, not the size of
the 512-byte stack buffer, so it returns `content_len`; `ret <= 0` (an
empty body) yields a 500; `buf[ret] = 0` with `ret >= 512` writes past the
end of `buf` (modelled as the `oobWrite` effect, after which the C
behavior is undefined).  Otherwise the body is tokenized, each
successfully scanned pair is written through `save_setting` with its value
URL-decoded, and the response is a confirmation-plus-restart when any
written key was `ssid` or `pass`, else a 303 redirect to `/?saved=1`. -/
def save_post_handler (body : List Char) : SaveResponse :=
  let ret := body.length
  if ret = 0 then { writes := [], effects := [SaveEffect.send500] }
  else if 512 ≤ ret then { writes := [], effects := [SaveEffect.oobWrite] }
  else
    { writes := saveWrites body,
      effects :=
        if rebootNeeded body then
          [SaveEffect.sendBody "Wi-Fi settings saved. Rebooting...".toList,
           SaveEffect.delayMs 1000, SaveEffect.restart]
        else
          [SaveEffect.setStatus "303 See Other".toList,
           SaveEffect.setHeader "Location".toList "/?saved=1".toList,
           SaveEffect.sendBody "Redirecting...".toList] }

/-- The NVS-backed settings store, as the map each key's latest committed
value. -/
def Store : Type := List Char → Option (List Char)

/-- The C string a byte buffer denotes: `nvs_set_str` receives `char *`
arguments and stores only the bytes before the first NUL terminator. -/
def cString (v : List Char) : List Char :=
  v.takeWhile (fun c => c ≠ '\x00')

/-- One `save_setting` call under a success oracle `f` (the C caller
discards the returned `esp_err_t`; a failed write leaves the prior
value).  Key and value are passed to `nvs_set_str` as C strings, so only
the bytes before a NUL are stored: a decoded value starting with `%00`
commits the empty string. -/
def saveSetting (f : List Char → List Char → Bool) (st : Store)
    (k v : List Char) : Store :=
  if f k v then
    (fun k' => if k' = cString k then some (cString v) else st k')
  else st

/-- The sequence of `save_setting` calls the save handler issues, applied
to the store under success oracle `f`. -/
def applyWrites (f : List Char → List Char → Bool) (st : Store) :
    List (List Char × List Char) → Store
  | [] => st
  | kv :: rest => applyWrites f (saveSetting f st kv.1 kv.2) rest

/-- A full `POST /save` round trip: the store after the handler ran under
write-success oracle `f`, together with the handler's response. -/
def runSave (f : List Char → List Char → Bool) (st : Store)
    (body : List Char) : Store × SaveResponse :=
  (applyWrites f st (save_post_handler body).writes, save_post_handler body)

/-- `load_setting(key, buf, maxLen)`: `nvs_get_str` fails with `NotFound`
when the key is absent and leaves the buffer untouched when the stored
string (with its NUL terminator) does not fit in `maxLen` bytes. -/
def load_setting (st : Store) (key : List Char) (maxLen : Nat) :
    Option (List Char) :=
  match st key with
  | none => none
  | some v => if v.length + 1 ≤ maxLen then some v else none

/-- `DEFAULT_COLOR` of the `config_portal` component. -/
def DEFAULT_COLOR : List Char := "#23A55A".toList

/-- `settings_get_handler`: the JSON body built by `snprintf` from the
`ssid` (32-byte buffer, initially empty), `pass` (64-byte buffer,
initially empty) and `led_color` (8-byte buffer, initially
`DEFAULT_COLOR`) reads. -/
def settings_get_handler (st : Store) : List Char :=
  let ssid := (load_setting st "ssid".toList 32).getD []
  let pass := (load_setting st "pass".toList 64).getD []
  let led_color := (load_setting st "led_color".toList 8).getD DEFAULT_COLOR
  "\x7b \"ssid\": \"".toList ++ ssid ++ "\", \"pass\": \"".toList ++ pass
    ++ "\", \"led_color\": \"".toList ++ led_color ++ "\" \x7d".toList

/-- `leadsWith p l` holds when `p` is an initial segment of `l` (the
matching step of `strstr`). -/
def leadsWith : List Char → List Char → Bool
  | [], _ => true
  | _ :: _, [] => false
  | p :: ps, c :: cs => p = c && leadsWith ps cs

/-- `strstr`: index of the first occurrence of `pat`, if any. -/
def firstOccur (pat : List Char) : List Char → Option Nat
  | [] => if pat.isEmpty then some 0 else none
  | c :: rest =>
      if leadsWith pat (c :: rest) then some 0
      else (firstOccur pat rest).map (· + 1)

/-- The placeholder token searched for by `index_get_handler`. -/
def PLACEHOLDER : List Char := "\x7b\x7bLED_COLOR\x7d\x7d".toList

/-- `index_get_handler` on embedded template `template`: the `led_color`
setting (8-byte buffer pre-filled with `DEFAULT_COLOR`) replaces the first
occurrence of the placeholder; the three `memcpy`s overflow the 1024-byte
render buffer when the substituted page (plus NUL) does not fit (`none`,
after which the C behavior is undefined); with no occurrence the template
is `strncpy`ed and truncated to 1023 bytes. -/
def index_get_handler (st : Store) (template : List Char) :
    Option (List Char) :=
  let led_color := (load_setting st "led_color".toList 8).getD DEFAULT_COLOR
  match firstOccur PLACEHOLDER template with
  | some i =>
      let out := template.take i ++ led_color
                   ++ template.drop (i + PLACEHOLDER.length)
      if out.length + 1 ≤ 1024 then some out else none
  | none => some (template.take 1023)

/-- Modelled from the spec: "the page body is produced by substituting the
first occurrence of a single placeholder token with the current
`led_color` setting"; replaces the first occurrence of `pat` by `repl`,
leaving the input unchanged when `pat` does not occur.  Compared against
`index_get_handler` below. -/
def replaceFirstOcc (pat repl : List Char) : List Char → List Char
  | [] => []
  | c :: rest =>
      if leadsWith pat (c :: rest) then repl ++ (c :: rest).drop pat.length
      else c :: replaceFirstOcc pat repl rest

/-! ### Parsing lemmas -/

lemma url_decode_ne_nil (v : List Char) (hv : v ≠ []) : url_decode v ≠ [] := by
  match v with
  | [] => exact absurd rfl hv
  | c :: rest =>
      match rest with
      | [] =>
          by_cases hc : c = '%'
          · subst hc; simp [url_decode]
          · by_cases hp : c = '+' <;> simp [url_decode, hc, hp]
      | [a] =>
          by_cases hc : c = '%'
          · subst hc; simp [url_decode]
          · by_cases hp : c = '+' <;> simp [url_decode, hc, hp]
      | a :: b :: rest2 =>
          by_cases hc : c = '%'
          · subst hc
            by_cases hx : (isxdigitC a && isxdigitC b) = true <;>
              simp [url_decode, hx]
          · by_cases hp : c = '+' <;> simp [url_decode, hc, hp]

lemma splitAmp_ne_nil (l : List Char) : splitAmp l ≠ [] := by
  cases l with
  | nil => simp [splitAmp]
  | cons c rest =>
      simp only [splitAmp]
      split
      · simp
      · cases h : splitAmp rest <;> simp

lemma splitAmp_cons_amp (l : List Char) :
    splitAmp ('&' :: l) = [] :: splitAmp l := by
  rw [splitAmp]
  simp

lemma splitAmp_append (l1 l2 : List Char) :
    splitAmp (l1 ++ '&' :: l2) = splitAmp l1 ++ splitAmp l2 := by
  induction l1 with
  | nil =>
      rw [List.nil_append, splitAmp_cons_amp]
      rfl
  | cons c rest ih =>
      rw [List.cons_append]
      by_cases hc : c = '&'
      · subst hc
        rw [splitAmp_cons_amp, splitAmp_cons_amp, ih]
        rfl
      · rw [splitAmp, if_neg hc, ih]
        rw [splitAmp, if_neg hc]
        cases h : splitAmp rest with
        | nil => exact absurd h (splitAmp_ne_nil rest)
        | cons t ts => simp [h]

lemma splitAmp_no_amp (p : List Char) (hp : '&' ∉ p) : splitAmp p = [p] := by
  induction p with
  | nil => simp [splitAmp]
  | cons c rest ih =>
      have hc : c ≠ '&' := fun h => hp (h ▸ List.mem_cons_self c rest)
      have hrest : '&' ∉ rest := fun h => hp (List.mem_cons_of_mem _ h)
      simp [splitAmp, hc, ih hrest]

lemma splitPairs_append (l1 l2 : List Char) :
    splitPairs (l1 ++ '&' :: l2) = splitPairs l1 ++ splitPairs l2 := by
  simp [splitPairs, splitAmp_append, List.filter_append]

lemma splitPairs_no_amp (p : List Char) (hp : '&' ∉ p) (hne : p ≠ []) :
    splitPairs p = [p] := by
  simp [splitPairs, splitAmp_no_amp p hp, hne]

lemma splitPairs_nil : splitPairs [] = [] := by decide

lemma splitPairs_cons_amp (l : List Char) :
    splitPairs ('&' :: l) = splitPairs l := by
  simp [splitPairs, splitAmp_cons_amp]

/-- Everything `sscanf("%31[^=]=%127s")` guarantees about a successfully
scanned pair: the key is the (at most 31 byte) run of non-`=` bytes before
the first `=`, and the value is a nonempty whitespace-free run of at most
127 bytes. -/
lemma scanPair_some {pair k v : List Char}
    (h : scanPair pair = some (k, v)) :
    k = (pair.takeWhile (fun c => c ≠ '=')).take 31 ∧
    k ≠ [] ∧ k.length ≤ 31 ∧ '=' ∉ k ∧
    v ≠ [] ∧ v.length ≤ 127 ∧ (∀ c ∈ v, isspaceC c = false) := by
  simp only [scanPair] at h
  split at h
  · cases h
  · rename_i hk
    split at h
    · rename_i rest hrest
      split at h
      · cases h
      · rename_i hv
        injection h with h'
        injection h' with hkey hval
        subst hkey hval
        refine ⟨rfl, by simpa using hk, ?_, ?_, by simpa using hv, ?_, ?_⟩
        · exact List.length_take_le 31 _
        · intro hmem
          have := List.mem_takeWhile_imp (List.take_subset 31 _ hmem)
          simp at this
        · exact List.length_take_le 127 _
        · intro c hmem
          have := List.mem_takeWhile_imp (List.take_subset 127 _ hmem)
          simpa using this
    · cases h

lemma scanPair_nil : scanPair [] = none := by decide

lemma saveWrites_no_amp (p k v : List Char) (hp : '&' ∉ p)
    (h : scanPair p = some (k, v)) :
    saveWrites p = [(k, url_decode v)] := by
  have hne : p ≠ [] := by
    rintro rfl
    rw [scanPair_nil] at h
    cases h
  simp [saveWrites, splitPairs_no_amp p hp hne, h]

lemma saveWrites_skip (b1 b2 badp : List Char) (h1 : '&' ∉ badp)
    (h2 : scanPair badp = none) :
    saveWrites (b1 ++ '&' :: (badp ++ '&' :: b2)) =
      saveWrites (b1 ++ '&' :: b2) := by
  rcases eq_or_ne badp [] with hb | hb
  · subst hb
    simp [saveWrites, splitPairs_append, splitPairs_cons_amp]
  · simp [saveWrites, splitPairs_append, splitPairs_no_amp badp h1 hb,
      List.filterMap_append, h2]

lemma rebootNeeded_skip (b1 b2 badp : List Char) (h1 : '&' ∉ badp)
    (h2 : scanPair badp = none) :
    rebootNeeded (b1 ++ '&' :: (badp ++ '&' :: b2)) =
      rebootNeeded (b1 ++ '&' :: b2) := by
  rcases eq_or_ne badp [] with hb | hb
  · subst hb
    simp [rebootNeeded, splitPairs_append, splitPairs_cons_amp]
  · simp [rebootNeeded, splitPairs_append, splitPairs_no_amp badp h1 hb,
      List.any_append, h2]

/-- The `reboot_needed` flag is set exactly when some write with raw key
`ssid` or `pass` was issued. -/
lemma rebootNeeded_iff (body : List Char) :
    rebootNeeded body = true ↔
      (∃ v, ("ssid".toList, v) ∈ saveWrites body ∨
            ("pass".toList, v) ∈ saveWrites body) := by
  unfold rebootNeeded saveWrites
  rw [List.any_eq_true]
  constructor
  · rintro ⟨p, hp, hmatch⟩
    cases hscan : scanPair p with
    | none => rw [hscan] at hmatch; cases hmatch
    | some kv =>
        rw [hscan] at hmatch
        simp only [Bool.or_eq_true, decide_eq_true_eq] at hmatch
        rcases hmatch with hkey | hkey <;>
          [exact ⟨url_decode kv.2, Or.inl (List.mem_filterMap.mpr
            ⟨p, hp, by simp [hscan, hkey]⟩)⟩;
           exact ⟨url_decode kv.2, Or.inr (List.mem_filterMap.mpr
            ⟨p, hp, by simp [hscan, hkey]⟩)⟩]
  · rintro ⟨v, hv | hv⟩ <;>
      · obtain ⟨p, hp, hmap⟩ := List.mem_filterMap.mp hv
        cases hscan : scanPair p with
        | none => rw [hscan] at hmap; cases hmap
        | some kv =>
            rw [hscan] at hmap
            simp only [Option.map_some', Option.some_inj] at hmap
            injection hmap with h1 h2
            refine ⟨p, hp, ?_⟩
            rw [hscan]
            simp [h1]

/-- In the non-degenerate case (`0 < content_len < 512`) the handler's
writes and effects are the parse-level ones. -/
lemma save_post_handler_run (body : List Char) (h1 : body ≠ [])
    (h2 : body.length < 512) :
    save_post_handler body =
      { writes := saveWrites body,
        effects :=
          if rebootNeeded body then
            [SaveEffect.sendBody "Wi-Fi settings saved. Rebooting...".toList,
             SaveEffect.delayMs 1000, SaveEffect.restart]
          else
            [SaveEffect.setStatus "303 See Other".toList,
             SaveEffect.setHeader "Location".toList "/?saved=1".toList,
             SaveEffect.sendBody "Redirecting...".toList] } := by
  have h1' : body.length ≠ 0 := by simpa using h1
  simp [save_post_handler, h1', Nat.not_le.mpr h2]

/-! ### Template substitution lemmas -/

lemma replaceFirstOcc_of_none (pat repl l : List Char)
    (h : firstOccur pat l = none) : replaceFirstOcc pat repl l = l := by
  induction l with
  | nil => simp [replaceFirstOcc]
  | cons c rest ih =>
      simp only [firstOccur] at h
      by_cases hl : leadsWith pat (c :: rest) = true
      · rw [if_pos hl] at h; cases h
      · rw [if_neg hl] at h
        rw [Option.map_eq_none'] at h
        simp only [replaceFirstOcc, hl, if_false, Bool.false_eq_true]
        rw [ih h]

lemma replaceFirstOcc_of_some (pat repl l : List Char) (i : Nat)
    (hpat : pat ≠ []) (h : firstOccur pat l = some i) :
    replaceFirstOcc pat repl l =
      l.take i ++ repl ++ l.drop (i + pat.length) := by
  induction l generalizing i with
  | nil =>
      simp only [firstOccur] at h
      rw [if_neg (by simpa using hpat)] at h
      cases h
  | cons c rest ih =>
      simp only [firstOccur] at h
      by_cases hl : leadsWith pat (c :: rest) = true
      · rw [if_pos hl] at h
        injection h with hi
        subst hi
        simp [replaceFirstOcc, hl]
      · rw [if_neg hl] at h
        obtain ⟨j, hj, rfl⟩ := Option.map_eq_some'.mp h
        simp only [replaceFirstOcc, hl, if_false, Bool.false_eq_true]
        rw [ih j hj]
        have : j + 1 + pat.length = (j + pat.length) + 1 := by omega
        simp [this, List.take_succ_cons, List.drop_succ_cons]

/-! ### State machine lemmas and claims -/

/-- The portal instances running are exactly the one recorded in the
`server` global; preserved by every event (and true at boot). -/
lemma wifi_active_inv (max : Nat) (s : ClockState) (e : WifiEvent)
    (hwf : s.active = s.server.toList) :
    (wifi_event_handler max s e).active =
      (wifi_event_handler max s e).server.toList := by
  cases e <;>
    simp only [wifi_event_handler, connection_success_callback, start_ap,
      config_portal_start, config_portal_stop]
  · exact hwf
  · split
    · exact hwf
    · cases hsrv : s.server with
      | none => simp [hsrv, hwf]
      | some h => simp [hsrv, hwf]
  · exact hwf
  · exact hwf
  · cases hsrv : s.server with
    | none => simp [hsrv, hwf]
    | some h => simp [hsrv, hwf]

/-- C1: a station disconnect with the retry counter below
`CONFIG_MAX_STA_RETRIES` re-issues `esp_wifi_connect` and increments the
counter (and changes nothing else); a disconnect at or above the maximum
instead clears `sta_connected`, stops any running portal, configures and
starts access-point mode and the fallback portal, and does not issue
another connect. -/
theorem c1_disconnect_retry_or_fallback (max : Nat) (s : ClockState) :
    (s.sta_retry_count < max →
      wifi_event_handler max s WifiEvent.staDisconnected =
        { s with sta_retry_count := s.sta_retry_count + 1,
                 trace := s.trace ++ [Act.wifiConnect] }) ∧
    (max ≤ s.sta_retry_count →
      (wifi_event_handler max s WifiEvent.staDisconnected).sta_retry_count =
          s.sta_retry_count ∧
      (wifi_event_handler max s WifiEvent.staDisconnected).sta_connected =
          false ∧
      (wifi_event_handler max s WifiEvent.staDisconnected).server =
          some s.nextHandle ∧
      (wifi_event_handler max s WifiEvent.staDisconnected).trace =
        s.trace ++
          (match s.server with
           | some h => [Act.portalStop h]
           | none => []) ++
          [Act.apConfigStart, Act.portalStart s.nextHandle] ∧
      Act.wifiConnect ∉
        ((wifi_event_handler max s WifiEvent.staDisconnected).trace.drop
          s.trace.length)) := by
  constructor
  · intro h
    simp [wifi_event_handler, h]
  · intro h
    have hlt : ¬ s.sta_retry_count < max := Nat.not_lt.mpr h
    cases hsrv : s.server with
    | none =>
        simp [wifi_event_handler, hlt, start_ap, config_portal_start,
          config_portal_stop, hsrv, List.append_assoc, List.drop_left]
    | some hd =>
        simp [wifi_event_handler, hlt, start_ap, config_portal_start,
          config_portal_stop, hsrv, List.append_assoc]

/-- C1 witness. -/
theorem c1_witness :
    (wifi_event_handler 1 bootStaState WifiEvent.staDisconnected =
      { bootStaState with
          sta_retry_count := bootStaState.sta_retry_count + 1,
          trace := bootStaState.trace ++ [Act.wifiConnect] }) ∧
    (wifi_event_handler 1 { bootStaState with sta_retry_count := 1 }
        WifiEvent.staDisconnected).server =
      some { bootStaState with sta_retry_count := 1 }.nextHandle := by
  refine ⟨(c1_disconnect_retry_or_fallback 1 bootStaState).1 (by decide), ?_⟩
  exact (((c1_disconnect_retry_or_fallback 1
    { bootStaState with sta_retry_count := 1 }).2 (by decide)).2.2).1

/-- C2 counterexample: with `CONFIG_MAX_STA_RETRIES = 3`, three consecutive
station disconnects from a credentialed boot leave the device still in
station mode, retrying: the retry counter is 3, every disconnect re-issued
a connect, no access-point mode was configured, and no portal is running —
the third disconnect did not trigger fallback. -/
theorem c2_counterexample :
    runEvents 3 bootStaState
        [WifiEvent.staDisconnected, WifiEvent.staDisconnected,
         WifiEvent.staDisconnected] =
      { bootStaState with
          sta_retry_count := 3,
          trace := [Act.wifiConnect, Act.wifiConnect, Act.wifiConnect] } ∧
    (runEvents 3 bootStaState
        [WifiEvent.staDisconnected, WifiEvent.staDisconnected,
         WifiEvent.staDisconnected]).server = none ∧
    (runEvents 3 bootStaState
        [WifiEvent.staDisconnected, WifiEvent.staDisconnected,
         WifiEvent.staDisconnected]).active = [] ∧
    Act.apConfigStart ∉
      (runEvents 3 bootStaState
        [WifiEvent.staDisconnected, WifiEvent.staDisconnected,
         WifiEvent.staDisconnected]).trace := by
  decide

/-- C2 amended: with `CONFIG_MAX_STA_RETRIES = 3`, a credentialed boot
followed by four consecutive station disconnects enters access-point
fallback on the fourth disconnect, not the third: the first three each
re-issue a connect and leave the retry counter at 3, and the fourth (with
the counter at 3, the configured maximum, just before the transition)
configures access-point mode and starts the fallback portal, leaving the
counter at 3. -/
theorem c2_fourth_disconnect_falls_back :
    (runEvents 3 bootStaState
        [WifiEvent.staDisconnected, WifiEvent.staDisconnected,
         WifiEvent.staDisconnected]).sta_retry_count = 3 ∧
    (runEvents 3 bootStaState
        [WifiEvent.staDisconnected, WifiEvent.staDisconnected,
         WifiEvent.staDisconnected]).server = none ∧
    runEvents 3 bootStaState
        [WifiEvent.staDisconnected, WifiEvent.staDisconnected,
         WifiEvent.staDisconnected, WifiEvent.staDisconnected] =
      { sta_retry_count := 3, sta_connected := false, server := some 0,
        active := [0], nextHandle := 1,
        trace := [Act.wifiConnect, Act.wifiConnect, Act.wifiConnect,
                  Act.apConfigStart, Act.portalStart 0] } := by
  decide

/-- C3 counterexample: deliver a got-address event while the fallback
portal is running (the state reached when a disconnect with
`CONFIG_MAX_STA_RETRIES = 0` fell back to access-point mode).  The running
portal is not stopped and no new portal is started in its place: the same
handle stays active and the handler only fires the readiness callback,
initialises mDNS and logs the bot in. -/
theorem c3_counterexample :
    (wifi_event_handler 0
        (wifi_event_handler 0 bootStaState WifiEvent.staDisconnected)
        WifiEvent.gotIP).server = some 0 ∧
    (wifi_event_handler 0
        (wifi_event_handler 0 bootStaState WifiEvent.staDisconnected)
        WifiEvent.gotIP).active = [0] ∧
    (wifi_event_handler 0
        (wifi_event_handler 0 bootStaState WifiEvent.staDisconnected)
        WifiEvent.gotIP).trace =
      [Act.apConfigStart, Act.portalStart 0, Act.readiness, Act.mdnsInit,
       Act.discordLogin] ∧
    ((wifi_event_handler 0
        (wifi_event_handler 0 bootStaState WifiEvent.staDisconnected)
        WifiEvent.gotIP).trace.countP
      (fun a => match a with
        | Act.portalStop _ => true
        | _ => false)) = 0 := by
  decide

/-- C3 amended: when the got-address event is processed, the readiness
callback is invoked exactly once for that connection; if a portal server
was running at that moment it is left running unchanged (it is neither
stopped nor replaced), and if none was running the portal is started —
in either case exactly one portal server instance is active afterward. -/
theorem c3_got_ip_readiness_and_portal (max : Nat) (s : ClockState)
    (hwf : s.active = s.server.toList) :
    ((wifi_event_handler max s WifiEvent.gotIP).trace.drop
        s.trace.length).countP (fun a => a = Act.readiness) = 1 ∧
    (wifi_event_handler max s WifiEvent.gotIP).active.length = 1 ∧
    (∀ h, s.server = some h →
      (wifi_event_handler max s WifiEvent.gotIP).server = some h ∧
      (wifi_event_handler max s WifiEvent.gotIP).active = [h] ∧
      (wifi_event_handler max s WifiEvent.gotIP).trace =
        s.trace ++ [Act.readiness, Act.mdnsInit, Act.discordLogin]) ∧
    (s.server = none →
      (wifi_event_handler max s WifiEvent.gotIP).server =
          some s.nextHandle ∧
      (wifi_event_handler max s WifiEvent.gotIP).active = [s.nextHandle] ∧
      (wifi_event_handler max s WifiEvent.gotIP).trace =
        s.trace ++ [Act.readiness, Act.mdnsInit,
          Act.portalStart s.nextHandle, Act.discordLogin]) := by
  cases hsrv : s.server with
  | none =>
      simp [wifi_event_handler, connection_success_callback,
        config_portal_start, hsrv, hwf, List.append_assoc, List.drop_left,
        List.countP_cons]
  | some hd =>
      simp [wifi_event_handler, connection_success_callback,
        config_portal_start, hsrv, hwf, List.append_assoc, List.drop_left,
        List.countP_cons]

/-- C3 witness. -/
theorem c3_witness :
    ((wifi_event_handler 3 bootStaState WifiEvent.gotIP).trace.drop
        bootStaState.trace.length).countP (fun a => a = Act.readiness) = 1 ∧
    (wifi_event_handler 3 bootStaState WifiEvent.gotIP).active.length = 1 := by
  have h := c3_got_ip_readiness_and_portal 3 bootStaState (by decide)
  exact ⟨h.1, h.2.1⟩

/-- C9: every entry into access-point mode (`start_ap`) first fully stops
the portal recorded in `server` when one is running — the stop precedes
both the access-point bring-up and the new portal start in the action
order — and afterwards exactly one portal server instance is active. -/
theorem c9_single_portal (s : ClockState)
    (hwf : s.active = s.server.toList) :
    (start_ap s).active = [s.nextHandle] ∧
    (start_ap s).server = some s.nextHandle ∧
    (start_ap s).trace =
      s.trace ++
        (match s.server with
         | some h => [Act.portalStop h]
         | none => []) ++
        [Act.apConfigStart, Act.portalStart s.nextHandle] := by
  cases hsrv : s.server with
  | none =>
      simp [start_ap, config_portal_start, config_portal_stop, hsrv, hwf,
        List.append_assoc]
  | some hd =>
      simp [start_ap, config_portal_start, config_portal_stop, hsrv, hwf,
        List.append_assoc]

/-- C9 witness: starting access-point mode while portal 7 is running. -/
theorem c9_witness :
    (start_ap
      { sta_retry_count := 0, sta_connected := false, server := some 7,
        active := [7], nextHandle := 8, trace := [] }).active = [8] := by
  exact (c9_single_portal
    { sta_retry_count := 0, sta_connected := false, server := some 7,
      active := [7], nextHandle := 8, trace := [] } (by decide)).1

/-! ### Provisioning portal claims -/

lemma save_post_handler_writes_sub (body : List Char) :
    (save_post_handler body).writes = [] ∨
    (save_post_handler body).writes = saveWrites body := by
  by_cases h0 : body.length = 0
  · left; simp [save_post_handler, h0]
  · by_cases h5 : 512 ≤ body.length
    · left; simp [save_post_handler, h0, h5]
    · right
      rw [save_post_handler_run body (fun hb => h0 (by simp [hb]))
        (by omega)]

/-- C4: a `POST /save` whose parsed pairs include a write to key `ssid` or
`pass` is answered with the confirmation body, a brief delay, and an
unconditional process restart; one whose writes touch only other keys is
answered with a 303 redirect back to `/`; and in both cases the response
effects are the same under every write-success oracle and store — storage
errors are unreported to the client. -/
theorem c4_save_response_policy (f g : List Char → List Char → Bool)
    (st st2 : Store) (body : List Char)
    (h1 : body ≠ []) (h2 : body.length < 512) :
    ((∃ v, ("ssid".toList, v) ∈ (save_post_handler body).writes ∨
           ("pass".toList, v) ∈ (save_post_handler body).writes) →
      (runSave f st body).2.effects =
        [SaveEffect.sendBody "Wi-Fi settings saved. Rebooting...".toList,
         SaveEffect.delayMs 1000, SaveEffect.restart]) ∧
    ((∀ kv ∈ (save_post_handler body).writes,
        kv.1 ≠ "ssid".toList ∧ kv.1 ≠ "pass".toList) →
      (runSave f st body).2.effects =
        [SaveEffect.setStatus "303 See Other".toList,
         SaveEffect.setHeader "Location".toList "/?saved=1".toList,
         SaveEffect.sendBody "Redirecting...".toList]) ∧
    (runSave f st body).2.effects = (runSave g st2 body).2.effects := by
  have hw : (save_post_handler body).writes = saveWrites body := by
    rw [save_post_handler_run body h1 h2]
  refine ⟨?_, ?_, rfl⟩
  · rintro ⟨v, hv⟩
    rw [hw] at hv
    have hrn : rebootNeeded body = true := (rebootNeeded_iff body).mpr ⟨v, hv⟩
    show (save_post_handler body).effects = _
    rw [save_post_handler_run body h1 h2]
    simp [hrn]
  · intro hall
    cases hrn : rebootNeeded body with
    | false =>
        show (save_post_handler body).effects = _
        rw [save_post_handler_run body h1 h2]
        simp [hrn]
    | true =>
        exfalso
        obtain ⟨v, hv⟩ := (rebootNeeded_iff body).mp hrn
        rcases hv with hv | hv
        · have hv' : ("ssid".toList, v) ∈ (save_post_handler body).writes := by
            rw [hw]; exact hv
          exact (hall _ hv').1 rfl
        · have hv' : ("pass".toList, v) ∈ (save_post_handler body).writes := by
            rw [hw]; exact hv
          exact (hall _ hv').2 rfl

/-- C4 witness: a credential save restarts, a color-only save redirects. -/
theorem c4_witness :
    (runSave (fun _ _ => true) (fun _ => none)
        "ssid=MyNet&pass=Secret1".toList).2.effects =
      [SaveEffect.sendBody "Wi-Fi settings saved. Rebooting...".toList,
       SaveEffect.delayMs 1000, SaveEffect.restart] ∧
    (runSave (fun _ _ => false) (fun _ => none)
        "led_color=%23112233".toList).2.effects =
      [SaveEffect.setStatus "303 See Other".toList,
       SaveEffect.setHeader "Location".toList "/?saved=1".toList,
       SaveEffect.sendBody "Redirecting...".toList] := by
  constructor
  · exact (c4_save_response_policy (fun _ _ => true) (fun _ _ => true)
      (fun _ => none) (fun _ => none) "ssid=MyNet&pass=Secret1".toList
      (by decide) (by decide)).1 ⟨"MyNet".toList, Or.inl (by decide)⟩
  · exact ((c4_save_response_policy (fun _ _ => false) (fun _ _ => false)
      (fun _ => none) (fun _ => none) "led_color=%23112233".toList
      (by decide) (by decide)).2.1 (by decide))

set_option maxRecDepth 4000 in
/-- C5: `save_post_handler` passes `req->content_len` (not the 512-byte
buffer size) to `httpd_req_recv`, so a body of 512 bytes or more is read
in full and `buf[ret] = 0` writes out of bounds — the request is *not*
failed with a server error, contrary to the claim; the behavior is the
modelled out-of-bounds write (undefined behavior in the C). -/
theorem c5_oversized_body_overflow :
    save_post_handler (List.replicate 512 'a') =
      { writes := [], effects := [SaveEffect.oobWrite] } ∧
    save_post_handler (List.replicate 600 'x') =
      { writes := [], effects := [SaveEffect.oobWrite] } ∧
    (save_post_handler (List.replicate 512 'a')).effects ≠
      [SaveEffect.send500] := by
  refine ⟨?_, ?_, ?_⟩ <;> simp [save_post_handler, List.length_replicate]

/-- C6 counterexample: the pair `a=b=c` contains two `=` signs — by the
claim it "lacks exactly one `=`" and must be silently skipped — yet the
handler writes key `a` with value `b=c`. -/
theorem c6_counterexample :
    (save_post_handler "a=b=c".toList).writes =
      [("a".toList, "b=c".toList)] ∧
    (save_post_handler "a=b=c".toList).writes ≠ [] := by
  decide

/-- C6 amended: the body is tokenized on `&` (empty segments dropped); a
pair is written iff it scans as `%31[^=]=%127s` — a nonempty key of at
most 31 bytes before the first `=`, then `=`, then a nonempty
non-whitespace value of at most 127 bytes (everything after the first `=`,
including further `=` signs, belongs to the value) — with the value
percent-decoded (`%XX` hex escapes and `+` → space, so `a%20b+c` decodes
to `a b c`); a pair that fails to scan (no `=`, empty key, key part over
31 bytes, or empty value) is skipped without affecting the other pairs. -/
theorem c6_parse_decode_amended (body1 body2 badp p k v : List Char)
    (hbadAmp : '&' ∉ badp) (hbad : scanPair badp = none)
    (hpAmp : '&' ∉ p) (hscan : scanPair p = some (k, v)) :
    url_decode "a%20b+c".toList = "a b c".toList ∧
    saveWrites (body1 ++ '&' :: (badp ++ '&' :: body2)) =
      saveWrites (body1 ++ '&' :: body2) ∧
    rebootNeeded (body1 ++ '&' :: (badp ++ '&' :: body2)) =
      rebootNeeded (body1 ++ '&' :: body2) ∧
    saveWrites p = [(k, url_decode v)] ∧
    k ≠ [] ∧ k.length ≤ 31 ∧ '=' ∉ k ∧
    v ≠ [] ∧ v.length ≤ 127 ∧ (∀ c ∈ v, isspaceC c = false) := by
  obtain ⟨-, hk1, hk2, hk3, hv1, hv2, hv3⟩ := scanPair_some hscan
  exact ⟨by decide, saveWrites_skip _ _ _ hbadAmp hbad,
    rebootNeeded_skip _ _ _ hbadAmp hbad,
    saveWrites_no_amp p k v hpAmp hscan, hk1, hk2, hk3, hv1, hv2, hv3⟩

/-- C6 witness: the decode example, skipping `onlykey`, and a full write. -/
theorem c6_witness :
    url_decode "a%20b+c".toList = "a b c".toList ∧
    saveWrites
        ("x=1".toList ++ '&' :: ("onlykey".toList ++ '&' :: "y=2".toList)) =
      saveWrites ("x=1".toList ++ '&' :: "y=2".toList) ∧
    saveWrites "pass=a%20b+c".toList =
      [("pass".toList, "a b c".toList)] := by
  have h := c6_parse_decode_amended "x=1".toList "y=2".toList
    "onlykey".toList "pass=a%20b+c".toList "pass".toList "a%20b+c".toList
    (by decide) (by decide) (by decide) (by decide)
  refine ⟨h.1, h.2.1, ?_⟩
  rw [h.2.2.2.1, h.1]

/-- C7 counterexample: on an empty settings store `GET /settings.json`
renders `led_color` as the default `#23A55A`, not as the empty string the
claim requires for every absent key. -/
theorem c7_counterexample :
    settings_get_handler (fun _ => none) =
      ("\x7b \"ssid\": \"\", \"pass\": \"\", \"led_color\": \"#23A55A\" \x7d").toList ∧
    settings_get_handler (fun _ => none) ≠
      ("\x7b \"ssid\": \"\", \"pass\": \"\", \"led_color\": \"\" \x7d").toList := by
  decide

/-- C7 amended: for every state of the settings store, `GET
/settings.json` serves a JSON object with the current stored values of
`ssid`, `pass` and `led_color`, where each key is rendered
independently: an absent `ssid` or `pass` is rendered as the empty
string, an absent `led_color` as the fixed default `#23A55A`, and a
stored value too large for the handler's fixed read buffer is rendered
like an absent one. -/
theorem c7_settings_json_amended (st : Store) :
    ∃ s p l : List Char,
      settings_get_handler st =
        "\x7b \"ssid\": \"".toList ++ s ++ "\", \"pass\": \"".toList ++ p ++
          "\", \"led_color\": \"".toList ++ l ++ "\" \x7d".toList ∧
      (st "ssid".toList = none → s = []) ∧
      (∀ v, st "ssid".toList = some v → v.length < 32 → s = v) ∧
      (∀ v, st "ssid".toList = some v → ¬ v.length < 32 → s = []) ∧
      (st "pass".toList = none → p = []) ∧
      (∀ v, st "pass".toList = some v → v.length < 64 → p = v) ∧
      (∀ v, st "pass".toList = some v → ¬ v.length < 64 → p = []) ∧
      (st "led_color".toList = none → l = DEFAULT_COLOR) ∧
      (∀ v, st "led_color".toList = some v → v.length < 8 → l = v) ∧
      (∀ v, st "led_color".toList = some v → ¬ v.length < 8 →
        l = DEFAULT_COLOR) := by
  refine ⟨(load_setting st "ssid".toList 32).getD [],
          (load_setting st "pass".toList 64).getD [],
          (load_setting st "led_color".toList 8).getD DEFAULT_COLOR,
          rfl, ?_, ?_, ?_, ?_, ?_, ?_, ?_, ?_, ?_⟩
  · intro h
    unfold load_setting
    rw [h]
    rfl
  · intro v hv hlen
    unfold load_setting
    rw [hv]
    show (if v.length + 1 ≤ 32 then some v else none).getD [] = v
    rw [if_pos (show v.length + 1 ≤ 32 from hlen)]
    rfl
  · intro v hv hlen
    unfold load_setting
    rw [hv]
    show (if v.length + 1 ≤ 32 then some v else none).getD [] = []
    rw [if_neg (show ¬ v.length + 1 ≤ 32 from hlen)]
    rfl
  · intro h
    unfold load_setting
    rw [h]
    rfl
  · intro v hv hlen
    unfold load_setting
    rw [hv]
    show (if v.length + 1 ≤ 64 then some v else none).getD [] = v
    rw [if_pos (show v.length + 1 ≤ 64 from hlen)]
    rfl
  · intro v hv hlen
    unfold load_setting
    rw [hv]
    show (if v.length + 1 ≤ 64 then some v else none).getD [] = []
    rw [if_neg (show ¬ v.length + 1 ≤ 64 from hlen)]
    rfl
  · intro h
    unfold load_setting
    rw [h]
    rfl
  · intro v hv hlen
    unfold load_setting
    rw [hv]
    show (if v.length + 1 ≤ 8 then some v else none).getD DEFAULT_COLOR = v
    rw [if_pos (show v.length + 1 ≤ 8 from hlen)]
    rfl
  · intro v hv hlen
    unfold load_setting
    rw [hv]
    show (if v.length + 1 ≤ 8 then some v else none).getD DEFAULT_COLOR =
      DEFAULT_COLOR
    rw [if_neg (show ¬ v.length + 1 ≤ 8 from hlen)]
    rfl

/-- C7 witness: a mixed store — credentials stored, `led_color` absent. -/
theorem c7_witness :
    settings_get_handler
        (fun k => if k = "ssid".toList then some "MyNet".toList
          else if k = "pass".toList then some "pw".toList
          else none) =
      "\x7b \"ssid\": \"".toList ++ "MyNet".toList ++
        "\", \"pass\": \"".toList ++ "pw".toList ++
        "\", \"led_color\": \"".toList ++ DEFAULT_COLOR ++
        "\" \x7d".toList := by
  obtain ⟨s, p, l, heq, hs0, hs1, hs2, hp0, hp1, hp2, hl0, hl1, hl2⟩ :=
    c7_settings_json_amended
      (fun k => if k = "ssid".toList then some "MyNet".toList
        else if k = "pass".toList then some "pw".toList
        else none)
  rw [heq, hs1 "MyNet".toList (by decide) (by decide),
    hp1 "pw".toList (by decide) (by decide), hl0 (by decide)]

/-- C8: the `GET /` page body is the embedded template with the first
occurrence of `\x7b\x7bLED_COLOR\x7d\x7d` replaced by the current
`led_color` setting (the fixed default `#23A55A` when absent); with no
occurrence the template is served unchanged; in particular the template
`<x>\x7b\x7bLED_COLOR\x7d\x7d</x>` with stored color `#112233` renders as
`<x>#112233</x>`.  The hypotheses keep the rendered page and the template
inside the handler's fixed 1024-byte render buffer. -/
theorem c8_template_substitution (st : Store) (template : List Char)
    (hfit : (replaceFirstOcc PLACEHOLDER
        ((load_setting st "led_color".toList 8).getD DEFAULT_COLOR)
        template).length < 1024)
    (hlen : template.length ≤ 1023) :
    index_get_handler st template =
      some (replaceFirstOcc PLACEHOLDER
        ((load_setting st "led_color".toList 8).getD DEFAULT_COLOR)
        template) ∧
    (firstOccur PLACEHOLDER template = none →
      index_get_handler st template = some template) ∧
    index_get_handler
        (fun k => if k = "led_color".toList then some "#112233".toList
          else none)
        "<x>\x7b\x7bLED_COLOR\x7d\x7d</x>".toList =
      some "<x>#112233</x>".toList := by
  have hpat : PLACEHOLDER ≠ [] := by decide
  refine ⟨?_, ?_, by decide⟩
  · cases hocc : firstOccur PLACEHOLDER template with
    | none =>
        have hred : index_get_handler st template =
            some (template.take 1023) := by
          simp only [index_get_handler]
          rw [hocc]
        rw [hred, replaceFirstOcc_of_none _ _ _ hocc,
          List.take_of_length_le hlen]
    | some i =>
        have hred : index_get_handler st template =
            if (template.take i ++
                ((load_setting st "led_color".toList 8).getD DEFAULT_COLOR) ++
                template.drop (i + PLACEHOLDER.length)).length + 1 ≤ 1024 then
              some (template.take i ++
                ((load_setting st "led_color".toList 8).getD DEFAULT_COLOR) ++
                template.drop (i + PLACEHOLDER.length))
            else none := by
          simp only [index_get_handler]
          rw [hocc]
        rw [replaceFirstOcc_of_some _ _ _ i hpat hocc] at hfit ⊢
        rw [hred, if_pos (by omega)]
  · intro hocc
    have hred : index_get_handler st template =
        some (template.take 1023) := by
      simp only [index_get_handler]
      rw [hocc]
    rw [hred, List.take_of_length_le hlen]

/-- C8 witness. -/
theorem c8_witness :
    index_get_handler
        (fun k => if k = "led_color".toList then some "#112233".toList
          else none)
        "<x>\x7b\x7bLED_COLOR\x7d\x7d</x>".toList =
      some (replaceFirstOcc PLACEHOLDER
        ((load_setting
            (fun k => if k = "led_color".toList then some "#112233".toList
              else none)
            "led_color".toList 8).getD DEFAULT_COLOR)
        "<x>\x7b\x7bLED_COLOR\x7d\x7d</x>".toList) :=
  (c8_template_substitution
    (fun k => if k = "led_color".toList then some "#112233".toList
      else none)
    "<x>\x7b\x7bLED_COLOR\x7d\x7d</x>".toList (by decide) (by decide)).1

/-- C10 counterexample: the portal CAN assign a setting the empty string.
The body `ssid=%00` scans (its raw value `%00` is nonempty), `url_decode`
turns it into the single byte `0x00`, and `save_setting` hands that
buffer to `nvs_set_str` as a C string, committing the empty string for
key `ssid` — contrary to the claim's conclusion that no setting can be
assigned the empty string through the portal. -/
theorem c10_counterexample :
    (runSave (fun _ _ => true) (fun _ => none) "ssid=%00".toList).1
        "ssid".toList = some [] ∧
    ("ssid".toList, ['\x00']) ∈
      (save_post_handler "ssid=%00".toList).writes := by
  decide

/-- C10 amended: a `key=` form pair (empty value) never scans, so it
produces no settings write and does not mark the request
credential-affecting, while other pairs in the same body are processed
normally; every value *passed* to `save_setting` is a nonempty byte
sequence (URL-decoding a nonempty raw value cannot produce the empty
list) — but a setting can nonetheless be assigned the empty string
through the portal, because a percent-encoded NUL value such as
`ssid=%00` decodes to the byte `0x00` and `nvs_set_str` stores only the
bytes before the terminator, i.e. the empty string. -/
theorem c10_empty_value_skipped (body k v : List Char)
    (h : (k, v) ∈ (save_post_handler body).writes) :
    v ≠ [] ∧
    (save_post_handler "led_color=%23112233&ssid=".toList).writes =
      [("led_color".toList, "#112233".toList)] ∧
    rebootNeeded "led_color=%23112233&ssid=".toList = false ∧
    (runSave (fun _ _ => true) (fun _ => none) "ssid=%00".toList).1
        "ssid".toList = some [] := by
  refine ⟨?_, by decide, by decide, by decide⟩
  have hsub : (k, v) ∈ saveWrites body := by
    rcases save_post_handler_writes_sub body with hw | hw
    · rw [hw] at h
      cases h
    · rw [hw] at h
      exact h
  obtain ⟨p, hp, hmap⟩ := List.mem_filterMap.mp hsub
  cases hscan : scanPair p with
  | none => rw [hscan] at hmap; cases hmap
  | some kv =>
      rw [hscan] at hmap
      simp only [Option.map_some', Option.some_inj] at hmap
      injection hmap with h1 h2
      obtain ⟨-, -, -, -, hvne, -, -⟩ := scanPair_some hscan
      rw [← h2]
      exact url_decode_ne_nil _ hvne

/-- C10 witness. -/
theorem c10_witness :
    "#112233".toList ≠ [] ∧
    (save_post_handler "led_color=%23112233&ssid=".toList).writes =
      [("led_color".toList, "#112233".toList)] := by
  have h := c10_empty_value_skipped "led_color=%23112233&ssid=".toList
    "led_color".toList "#112233".toList (by decide)
  exact ⟨h.1, h.2.1⟩
